import Mathlib

/-!
# Verification of `UTM_Circle.py`

A shallow embedding of the single-file Streamlit application `UTM_Circle.py`
(function `generate_circle_from_utm`, the input-parsing loop, the widget-level
configuration bounds, and the per-circle generation loop), together with
theorems settling the specification claims.

Modelling conventions:
* Python floats are modelled as exact rationals (`ℚ`); `round(x, d)` /
  `np.round(x, d)` become the exact `roundTo d`.
* The external library `pyproj` is modelled by an abstract transform parameter
  `T : String → ℚ → ℚ → ℚ × ℚ`, where `T crs x y` stands for
  `pyproj.Transformer.from_crs(crs, "EPSG:4326", always_xy=True).transform(x, y)`
  returning `(lon, lat)`.  `np.cos`/`np.sin` on the radian angles are likewise
  abstract parameters `cosd sind : ℚ → ℚ` taking the angle in degrees
  (the composition `radians` then `cos`/`sin` of the source, which the claims
  never need to evaluate).
* `np.linspace(0, 360, n)` becomes `linspace 0 360 n` below.
-/

namespace UTMCircle

/-- Exact rounding to `d` decimal places, modelling Python's `round(x, d)` and
`np.round(x, d)` on the exact rational embedding of the float values. -/
def roundTo (d : ℕ) (x : ℚ) : ℚ := (round (x * 10 ^ d) : ℚ) / 10 ^ d

/-- `np.linspace lo hi n`: `n` evenly spaced samples over `[lo, hi]` inclusive,
element `i` being `lo + (hi - lo) * i / (n - 1)`.  (For `n = 1` the rational
convention `x / 0 = 0` makes the single element `lo`, as numpy does.) -/
def linspace (lo hi : ℚ) (n : ℕ) : List ℚ :=
  (List.range n).map (fun i : ℕ => lo + (hi - lo) * ((i : ℚ) / ((n : ℚ) - 1)))

/-- Source line 17: `angles_deg = np.linspace(0, 360, num_points)`. -/
def angles_deg (num_points : ℕ) : List ℚ := linspace 0 360 num_points

/-- Source line 8: `epsg_base = 32600 if northern_hemisphere else 32700`. -/
def epsg_base (northern_hemisphere : Bool) : ℕ :=
  if northern_hemisphere then 32600 else 32700

/-- Source line 9: `utm_crs = f"EPSG:{epsg_base + utm_zone}"`. -/
def utm_crs (utm_zone : ℕ) (northern_hemisphere : Bool) : String :=
  "EPSG:" ++ toString (epsg_base northern_hemisphere + utm_zone)

/-- Source line 13: `years_since_1984 = 2025.5 - 1984.0`. -/
def years_since_1984 : ℚ := 2025.5 - 1984.0

/-- Source line 14: the eastward drift rate, `0.025` m/year. -/
def drift_east : ℚ := 0.025

/-- Source line 15: the northward drift rate, `0.015` m/year. -/
def drift_north : ℚ := 0.015

/-- Source lines 12–15: the epoch correction applied to the centre in
projected (meter) space, in full when the flag is set and not at all
otherwise. -/
def correctedCenter (apply_epoch_correction : Bool) (easting northing : ℚ) :
    ℚ × ℚ :=
  if apply_epoch_correction then
    (easting + drift_east * years_since_1984,
     northing + drift_north * years_since_1984)
  else (easting, northing)

/-- One row of the output dataframe: rounded angle (6 dp), latitude and
longitude (10 dp each). -/
structure RingPoint where
  angle : ℚ
  lat : ℚ
  lon : ℚ
deriving DecidableEq, Repr

/-- The value returned by `generate_circle_from_utm`: the dataframe rows plus
the rounded centre latitude and longitude. -/
structure CircleOutput where
  ring : List RingPoint
  centerLat : ℚ
  centerLon : ℚ
deriving DecidableEq, Repr

/-- Shallow embedding of `generate_circle_from_utm` (source lines 7–38).

`T` abstracts `pyproj.Transformer.from_crs(utm_crs, "EPSG:4326",
always_xy=True).transform` (a pure map `(easting, northing) ↦ (lon, lat)`
for the given CRS string); `cosd`/`sind` abstract
`np.cos(np.radians ·)`/`np.sin(np.radians ·)`.

The source rounds the angle column to 6 decimals and latitude/longitude to
10 decimals, then appends one more row whose angle is `360.0` and whose
latitude/longitude are the *unrounded* first transform result rounded to
10 decimals (source lines 30–36), closing the loop unconditionally. -/
def generate_circle_from_utm (T : String → ℚ → ℚ → ℚ × ℚ)
    (cosd sind : ℚ → ℚ) (easting northing : ℚ) (utm_zone : ℕ)
    (radius_m : ℚ) (num_points : ℕ)
    (apply_epoch_correction northern_hemisphere : Bool) : CircleOutput :=
  let tr := T (utm_crs utm_zone northern_hemisphere)
  let c := correctedCenter apply_epoch_correction easting northing
  let angles := angles_deg num_points
  let lonlats := angles.map (fun θ =>
    tr (c.1 + radius_m * cosd θ) (c.2 + radius_m * sind θ))
  let center := tr c.1 c.2
  let df := List.zipWith
    (fun θ p => RingPoint.mk (roundTo 6 θ) (roundTo 10 p.2) (roundTo 10 p.1))
    angles lonlats
  let first := lonlats.headD (0, 0)
  let closing : RingPoint :=
    ⟨(360 : ℚ), roundTo 10 first.2, roundTo 10 first.1⟩
  ⟨df ++ [closing], roundTo 10 center.2, roundTo 10 center.1⟩

/-! ## The Streamlit batch run (source lines 51–88)

The widgets bound the configuration (`st.number_input("UTM Zone", min_value=1,
max_value=60)` at line 52, `st.number_input("Points per Circle", min_value=3)`
at line 54): a value outside the widget bounds is rejected before the
"Generate Circles" computation can run.  Following the spec's error taxonomy
we name these rejections `InvalidZone` and `InvalidPointCount`. -/

/-- Configuration errors, fatal to the whole batch. -/
inductive ConfigError where
  | InvalidZone
  | InvalidPointCount
deriving DecidableEq, Repr

/-- Python's `str.split()` with no separator: split on runs of whitespace,
dropping empty tokens.  `acc` holds the characters of the current token in
reverse. -/
def splitWsAux : List Char → List Char → List String
  | [], acc => if acc = [] then [] else [String.mk acc.reverse]
  | c :: cs, acc =>
    if c.isWhitespace then
      if acc = [] then splitWsAux cs []
      else String.mk acc.reverse :: splitWsAux cs []
    else splitWsAux cs (c :: acc)

/-- Source line 64: `parts = line.replace(",", " ").split()`.  Replacing the
single-character pattern `","` by `" "` is the character-wise map, and
`str.split()` with no separator splits on runs of whitespace and drops empty
tokens. -/
def tokenize (line : String) : List String :=
  splitWsAux (line.data.map (fun c => if c = ',' then ' ' else c)) []

/-- Source lines 64–72: one iteration of the parsing loop.  `parseNum`
abstracts Python's `float` constructor (`some` on success, `none` when it
raises `ValueError`).  A line with a token count other than two yields
`"Wrong format: <line>"`; two tokens where either fails to parse yield
`"Invalid number format: <line>"`. -/
def parseLine (parseNum : String → Option ℚ) (line : String) :
    Except String (ℚ × ℚ) :=
  match tokenize line with
  | [a, b] =>
    match parseNum a, parseNum b with
    | some e, some n => Except.ok (e, n)
    | _, _ => Except.error ("Invalid number format: " ++ line)
  | _ => Except.error ("Wrong format: " ++ line)

/-- Source lines 59–72: the parsing loop over all lines, appending parsed
coordinates to `coords` and messages to `errors` in input order. -/
def parseAll (parseNum : String → Option ℚ) :
    List String → List (ℚ × ℚ) × List String
  | [] => ([], [])
  | line :: rest =>
    let r := parseAll parseNum rest
    match parseLine parseNum line with
    | Except.ok c => (c :: r.1, r.2)
    | Except.error e => (r.1, e :: r.2)

/-- One generated circle with its label (source lines 82–101). -/
structure BatchItem where
  label : String
  result : CircleOutput
deriving DecidableEq, Repr

/-- The whole "Generate Circles" run: widget-validated configuration, the
parsing loop, then `generate_circle_from_utm` on every parsed coordinate pair
with labels `"Circle 1"`, `"Circle 2"`, … in input order.  Returns the
per-line error messages alongside the generated items (partial success). -/
def runBatch (T : String → ℚ → ℚ → ℚ × ℚ) (cosd sind : ℚ → ℚ)
    (parseNum : String → Option ℚ) (lines : List String)
    (utm_zone : ℤ) (radius_m : ℚ) (num_points : ℤ)
    (apply_epoch_correction northern_hemisphere : Bool) :
    Except ConfigError (List String × List BatchItem) :=
  if utm_zone < 1 ∨ 60 < utm_zone then Except.error ConfigError.InvalidZone
  else if num_points < 3 then Except.error ConfigError.InvalidPointCount
  else
    let pr := parseAll parseNum lines
    let items := pr.1.mapIdx (fun idx c =>
      { label := "Circle " ++ toString (idx + 1),
        result := generate_circle_from_utm T cosd sind c.1 c.2
          utm_zone.toNat radius_m num_points.toNat
          apply_epoch_correction northern_hemisphere })
    Except.ok (pr.2, items)

/-! ## Basic length facts -/

theorem length_linspace (lo hi : ℚ) (n : ℕ) : (linspace lo hi n).length = n := by
  rw [linspace, List.length_map, List.length_range]

theorem length_angles_deg (n : ℕ) : (angles_deg n).length = n := by
  rw [angles_deg, length_linspace]

theorem angles_deg_getElem (n i : ℕ) (h : i < (angles_deg n).length) :
    (angles_deg n)[i] = 360 * ((i : ℚ) / ((n : ℚ) - 1)) := by
  simp only [angles_deg, linspace, List.getElem_map, List.getElem_range]
  ring

theorem angles_deg_exists_cons (n : ℕ) (hn : 0 < n) :
    ∃ a as, angles_deg n = a :: as := by
  have hlen := length_angles_deg n
  cases h : angles_deg n with
  | nil => rw [h] at hlen; simp at hlen; omega
  | cons a as => exact ⟨a, as, rfl⟩

/-- The error message of a parsing outcome, if any. -/
def errorMsg {α : Type} : Except String α → Option String
  | Except.ok _ => none
  | Except.error e => some e

theorem parseAll_fst (parseNum : String → Option ℚ) (lines : List String) :
    (parseAll parseNum lines).1 =
      lines.filterMap (fun l => (parseLine parseNum l).toOption) := by
  induction lines with
  | nil => rfl
  | cons l rest ih =>
    simp only [parseAll, List.filterMap_cons]
    cases h : parseLine parseNum l with
    | ok c => simp [h, Except.toOption, ih]
    | error e => simp [h, Except.toOption, ih]

theorem parseAll_snd (parseNum : String → Option ℚ) (lines : List String) :
    (parseAll parseNum lines).2 =
      lines.filterMap (fun l => errorMsg (parseLine parseNum l)) := by
  induction lines with
  | nil => rfl
  | cons l rest ih =>
    simp only [parseAll, List.filterMap_cons]
    cases h : parseLine parseNum l with
    | ok c => simp [h, errorMsg, ih]
    | error e => simp [h, errorMsg, ih]

/-! ## Claim theorems -/

/-- C1: for every valid circle request (`num_points ≥ 3`, `radius_m ≥ 0`),
the returned ring has `num_points + 1` entries — the code closes the loop
unconditionally, always appending the duplicate of the start point, so the
result always falls in the claim's `num_points + 1` (closed-loop) branch. -/
theorem C1_ring_length (T : String → ℚ → ℚ → ℚ × ℚ) (cosd sind : ℚ → ℚ)
    (easting northing : ℚ) (utm_zone : ℕ) (radius_m : ℚ) (num_points : ℕ)
    (ac nh : Bool) (hnp : 3 ≤ num_points) (hr : 0 ≤ radius_m) :
    (generate_circle_from_utm T cosd sind easting northing utm_zone radius_m
      num_points ac nh).ring.length = num_points + 1 := by
  simp [generate_circle_from_utm, List.length_zipWith, length_angles_deg]

theorem C1_witness :
    (generate_circle_from_utm (fun _ x y => (x, y)) (fun _ => 1) (fun _ => 0)
      465177.689 5708543.612 31 50 17 false true).ring.length = 17 + 1 :=
  C1_ring_length _ _ _ _ _ _ _ _ _ _ (by decide) (by decide)

/-- C3: a zone number outside `[1, 60]` (for example 0 or 61) is rejected as
`InvalidZone` before any parsing or transform runs: the whole batch is the
error, for every transform `T` and every input. -/
theorem C3_invalid_zone (T : String → ℚ → ℚ → ℚ × ℚ) (cosd sind : ℚ → ℚ)
    (parseNum : String → Option ℚ) (lines : List String) (utm_zone : ℤ)
    (radius_m : ℚ) (num_points : ℤ) (ac nh : Bool)
    (hz : utm_zone < 1 ∨ 60 < utm_zone) :
    runBatch T cosd sind parseNum lines utm_zone radius_m num_points ac nh =
      Except.error ConfigError.InvalidZone := by
  rw [runBatch, if_pos hz]

theorem C3_witness :
    runBatch (fun _ x y => (x, y)) (fun _ => 1) (fun _ => 0) (fun _ => none)
      ["465177.689 5708543.612"] 61 50 17 false true =
      Except.error ConfigError.InvalidZone :=
  C3_invalid_zone _ _ _ _ _ _ _ _ _ _ (by decide)

/-- C4: with a valid zone, every `num_points < 3` is rejected as
`InvalidPointCount`, and `num_points = 3` is accepted (the batch succeeds). -/
theorem C4_min_num_points (T : String → ℚ → ℚ → ℚ × ℚ) (cosd sind : ℚ → ℚ)
    (parseNum : String → Option ℚ) (lines : List String) (utm_zone : ℤ)
    (radius_m : ℚ) (ac nh : Bool)
    (hz1 : 1 ≤ utm_zone) (hz2 : utm_zone ≤ 60) :
    (∀ num_points : ℤ, num_points < 3 →
      runBatch T cosd sind parseNum lines utm_zone radius_m num_points ac nh =
        Except.error ConfigError.InvalidPointCount) ∧
    (∃ v, runBatch T cosd sind parseNum lines utm_zone radius_m 3 ac nh =
      Except.ok v) := by
  constructor
  · intro np hnp
    rw [runBatch, if_neg (by omega), if_pos hnp]
  · rw [runBatch, if_neg (by omega), if_neg (by omega)]
    exact ⟨_, rfl⟩

theorem C4_witness :
    runBatch (fun _ x y => (x, y)) (fun _ => 1) (fun _ => 0) (fun _ => none)
      [] 31 50 2 false true = Except.error ConfigError.InvalidPointCount :=
  (C4_min_num_points _ _ _ _ _ _ _ _ _ (by decide) (by decide)).1 2
    (by decide)

/-- C6: the epoch correction acts in projected (meter) space before the
geographic transform, all-or-nothing: when enabled the corrected centre
differs from the input by exactly `drift * elapsed_years` in easting and
northing; when disabled it is unchanged; and the reported centre is the
transform `T` applied to the corrected centre. -/
theorem C6_epoch_correction (T : String → ℚ → ℚ → ℚ × ℚ)
    (cosd sind : ℚ → ℚ) (easting northing : ℚ) (utm_zone : ℕ)
    (radius_m : ℚ) (num_points : ℕ) (ac nh : Bool) :
    (correctedCenter true easting northing).1 - easting =
      drift_east * years_since_1984 ∧
    (correctedCenter true easting northing).2 - northing =
      drift_north * years_since_1984 ∧
    correctedCenter false easting northing = (easting, northing) ∧
    (generate_circle_from_utm T cosd sind easting northing utm_zone radius_m
        num_points ac nh).centerLat =
      roundTo 10 (T (utm_crs utm_zone nh)
        (correctedCenter ac easting northing).1
        (correctedCenter ac easting northing).2).2 ∧
    (generate_circle_from_utm T cosd sind easting northing utm_zone radius_m
        num_points ac nh).centerLon =
      roundTo 10 (T (utm_crs utm_zone nh)
        (correctedCenter ac easting northing).1
        (correctedCenter ac easting northing).2).1 := by
  refine ⟨by simp [correctedCenter], by simp [correctedCenter], rfl, rfl, rfl⟩

/-- C9: zone resolution is a pure function of zone number and hemisphere
(`utm_crs` is a function), the hemisphere flag switches between the northern
(EPSG 32600+zone) and southern (EPSG 32700+zone) UTM families, and for every
zone in `[1, 60]` the two resolved definitions differ. -/
theorem C9_hemisphere_family : ∀ utm_zone : ℕ, utm_zone ≤ 60 → 1 ≤ utm_zone →
    utm_crs utm_zone true = "EPSG:" ++ toString (32600 + utm_zone) ∧
    utm_crs utm_zone false = "EPSG:" ++ toString (32700 + utm_zone) ∧
    utm_crs utm_zone true ≠ utm_crs utm_zone false := by decide

theorem C9_witness :
    utm_crs 31 true = "EPSG:" ++ toString (32600 + 31) ∧
    utm_crs 31 false = "EPSG:" ++ toString (32700 + 31) ∧
    utm_crs 31 true ≠ utm_crs 31 false :=
  C9_hemisphere_family 31 (by decide) (by decide)

/-- C2: the ring is closed with a duplicate of the start point, and the
appended last point's rounded latitude and longitude are identical to the
first entry's rounded latitude and longitude: both are the same rounding of
the same transform result, not an independently recomputed point. -/
theorem C2_closing_duplicate (T : String → ℚ → ℚ → ℚ × ℚ)
    (cosd sind : ℚ → ℚ) (easting northing : ℚ) (utm_zone : ℕ)
    (radius_m : ℚ) (num_points : ℕ) (ac nh : Bool) (hnp : 3 ≤ num_points) :
    ((generate_circle_from_utm T cosd sind easting northing utm_zone radius_m
        num_points ac nh).ring.getLast?).map (fun p => (p.lat, p.lon)) =
      ((generate_circle_from_utm T cosd sind easting northing utm_zone
        radius_m num_points ac nh).ring.head?).map (fun p => (p.lat, p.lon)) := by
  obtain ⟨a, as, ha⟩ := angles_deg_exists_cons num_points (by omega)
  simp only [generate_circle_from_utm]
  rw [ha, List.getLast?_concat]
  simp [List.zipWith_cons_cons, List.head?_append]

theorem C2_witness :
    ((generate_circle_from_utm (fun _ x y => (x, y)) (fun _ => 1) (fun _ => 0)
        465177.689 5708543.612 31 50 17 false true).ring.getLast?).map
        (fun p => (p.lat, p.lon)) =
      ((generate_circle_from_utm (fun _ x y => (x, y)) (fun _ => 1)
        (fun _ => 0) 465177.689 5708543.612 31 50 17 false true).ring.head?).map
        (fun p => (p.lat, p.lon)) :=
  C2_closing_duplicate _ _ _ _ _ _ _ _ _ _ (by decide)

/-- C5: the generated angles (`np.linspace(0, 360, num_points)`, before the
6-decimal display rounding) are evenly spaced over `[0, 360]` inclusive:
the first is 0, the last is 360, and every consecutive difference equals
`360 / (num_points - 1)`; the closing duplicate row is appended after this
sequence and is excluded here. -/
theorem C5_angle_spacing (num_points : ℕ) (hnp : 3 ≤ num_points) :
    (angles_deg num_points).head? = some 0 ∧
    (angles_deg num_points).getLast? = some 360 ∧
    ∀ i : ℕ, ∀ hi1 : i + 1 < (angles_deg num_points).length,
      ∀ hi0 : i < (angles_deg num_points).length,
      (angles_deg num_points).get ⟨i + 1, hi1⟩ -
        (angles_deg num_points).get ⟨i, hi0⟩ =
        360 / ((num_points : ℚ) - 1) := by
  have hlen := length_angles_deg num_points
  have hq : (3 : ℚ) ≤ (num_points : ℚ) := by exact_mod_cast hnp
  have hne : ((num_points : ℚ) - 1) ≠ 0 := by linarith
  refine ⟨?_, ?_, ?_⟩
  · have h0 : 0 < (angles_deg num_points).length := by omega
    rw [List.head?_eq_getElem?, List.getElem?_eq_getElem h0,
      angles_deg_getElem num_points 0 h0]
    norm_num
  · have hl : num_points - 1 < (angles_deg num_points).length := by omega
    rw [List.getLast?_eq_getElem?, hlen, List.getElem?_eq_getElem hl,
      angles_deg_getElem num_points (num_points - 1) hl,
      Nat.cast_sub (by omega : 1 ≤ num_points), Nat.cast_one, div_self hne,
      mul_one]
  · intro i hi1 hi0
    rw [List.get_eq_getElem, List.get_eq_getElem,
      angles_deg_getElem num_points (i + 1) hi1,
      angles_deg_getElem num_points i hi0]
    push_cast
    field_simp
    ring

theorem C5_witness :
    (angles_deg 17).head? = some 0 ∧
    (angles_deg 17).getLast? = some 360 ∧
    (angles_deg 17).get ⟨1, by decide⟩ -
      (angles_deg 17).get ⟨0, by decide⟩ =
      360 / (((17 : ℕ) : ℚ) - 1) := by
  obtain ⟨h1, h2, h3⟩ := C5_angle_spacing 17 (by decide)
  exact ⟨h1, h2, h3 0 (by decide) (by decide)⟩

/-- C7: with `radius_m = 0`, every ring point (the closing duplicate
included) has the same rounded latitude and longitude as the transformed
centre. -/
theorem C7_zero_radius (T : String → ℚ → ℚ → ℚ × ℚ) (cosd sind : ℚ → ℚ)
    (easting northing : ℚ) (utm_zone : ℕ) (num_points : ℕ) (ac nh : Bool)
    (hnp : 3 ≤ num_points) :
    ∀ p ∈ (generate_circle_from_utm T cosd sind easting northing utm_zone 0
      num_points ac nh).ring,
      p.lat = (generate_circle_from_utm T cosd sind easting northing utm_zone
        0 num_points ac nh).centerLat ∧
      p.lon = (generate_circle_from_utm T cosd sind easting northing utm_zone
        0 num_points ac nh).centerLon := by
  obtain ⟨a, as, ha⟩ := angles_deg_exists_cons num_points (by omega)
  intro p hp
  simp only [generate_circle_from_utm, ha, zero_mul, add_zero] at hp ⊢
  rw [List.zipWith_map_right, List.zipWith_same] at hp
  rcases List.mem_append.1 hp with h | h
  · obtain ⟨θ, _, rfl⟩ := List.mem_map.1 h
    exact ⟨rfl, rfl⟩
  · rw [List.mem_singleton] at h
    subst h
    constructor <;> simp

theorem C7_witness :
    ((generate_circle_from_utm (fun _ x y => (x, y)) (fun _ => 1)
        (fun _ => 0) 10 20 31 0 3 false true).ring.head
        (List.cons_ne_nil _ _)).lat =
      (generate_circle_from_utm (fun _ x y => (x, y)) (fun _ => 1)
        (fun _ => 0) 10 20 31 0 3 false true).centerLat ∧
    ((generate_circle_from_utm (fun _ x y => (x, y)) (fun _ => 1)
        (fun _ => 0) 10 20 31 0 3 false true).ring.head
        (List.cons_ne_nil _ _)).lon =
      (generate_circle_from_utm (fun _ x y => (x, y)) (fun _ => 1)
        (fun _ => 0) 10 20 31 0 3 false true).centerLon :=
  C7_zero_radius _ _ _ _ _ _ _ _ _ (by decide) _ (List.head_mem _)

/-- C8: the parsing loop is partial-success: the collected coordinates are
exactly the well-formed lines' values in input order, the collected messages
are exactly the malformed lines' messages in input order (so one bad line
never aborts the others), a line with a token count other than two is
rejected with `"Wrong format: <line>"`, a two-token line with a token that
does not parse as a number is rejected with
`"Invalid number format: <line>"` — each message carrying the offending
line — and a two-token line whose tokens both parse yields its coordinate
pair. -/
theorem C8_partial_success (parseNum : String → Option ℚ)
    (lines : List String) :
    ((parseAll parseNum lines).1 =
        lines.filterMap (fun l => (parseLine parseNum l).toOption) ∧
      (parseAll parseNum lines).2 =
        lines.filterMap (fun l => errorMsg (parseLine parseNum l))) ∧
    (∀ line, (tokenize line).length ≠ 2 →
      parseLine parseNum line =
        Except.error ("Wrong format: " ++ line)) ∧
    (∀ line a b, tokenize line = [a, b] →
      parseNum a = none ∨ parseNum b = none →
      parseLine parseNum line =
        Except.error ("Invalid number format: " ++ line)) ∧
    (∀ line a b ea nb, tokenize line = [a, b] →
      parseNum a = some ea → parseNum b = some nb →
      parseLine parseNum line = Except.ok (ea, nb)) := by
  refine ⟨⟨parseAll_fst parseNum lines, parseAll_snd parseNum lines⟩,
    ?_, ?_, ?_⟩
  · intro line hlen
    rcases htok : tokenize line with _ | ⟨a, _ | ⟨b, _ | ⟨c, cs⟩⟩⟩
    · simp [parseLine, htok]
    · simp [parseLine, htok]
    · exact absurd (by rw [htok]; rfl) hlen
    · simp [parseLine, htok]
  · intro line a b htok hnone
    rcases hpa : parseNum a with _ | ea
    · simp [parseLine, htok, hpa]
    · rcases hpb : parseNum b with _ | nb
      · simp [parseLine, htok, hpa, hpb]
      · rcases hnone with h | h
        · rw [hpa] at h; exact absurd h (by simp)
        · rw [hpb] at h; exact absurd h (by simp)
  · intro line a b ea nb htok hpa hpb
    simp [parseLine, htok, hpa, hpb]

theorem C8_witness :
    parseLine (fun _ => none) "465177.689" =
      Except.error ("Wrong format: " ++ "465177.689") :=
  (C8_partial_success (fun _ => none)
    ["465177.689", "465154.25 5708490.11"]).2.1 "465177.689" (by decide)

/-- C10: the elapsed-years span is the constant `2025.5 − 1984.0 = 41.5`, the
drift vector is the constant `(0.025, 0.015)` m/year, and so for every input
point the enabled correction offsets it by exactly `1.0375` m east and
`0.6225` m north, independent of the coordinates. -/
theorem C10_fixed_offset :
    years_since_1984 = 41.5 ∧
    drift_east * years_since_1984 = 1.0375 ∧
    drift_north * years_since_1984 = 0.6225 ∧
    ∀ easting northing : ℚ, correctedCenter true easting northing =
      (easting + 1.0375, northing + 0.6225) := by
  refine ⟨by norm_num [years_since_1984], by norm_num [drift_east, years_since_1984],
    by norm_num [drift_north, years_since_1984], fun e n => ?_⟩
  norm_num [correctedCenter, drift_east, drift_north, years_since_1984]

end UTMCircle
